import Mathlib

/-!
Shallow embedding of `api/models.js` from the OpenRouter model-compare
repository: the price/context-length/provider formatting helpers, the
`processModels` record transformation, and the serverless `handler` with
its in-memory TTL cache and stale-on-error fallback.

Modelling conventions:
* JS numbers that only ever hold exact small decimals are modelled as `ℚ`
  (prices) or `Nat`/`Int` (lengths, epoch milliseconds);
* `Math.round x` is `⌊x + 1/2⌋` (round half toward positive infinity),
  which is JS semantics for the values involved;
* optional / possibly-absent JS fields are `Option`; the `x || d` idiom is
  modelled explicitly, including the fact that `""` and `0` are falsy;
* the upstream `fetch` is a parameter of the handler: the four outcomes
  (network error, non-2xx status, body without the expected array, good
  body) are a sum type, and "no upstream call made" is expressed as the
  handler result not depending on that parameter.
-/

namespace ModelsApi

/-- `Math.round` on exact rationals: round half toward `+∞`, as JS does. -/
def mathRound (q : ℚ) : ℤ := ⌊q + 1/2⌋

/-- `function formatPrice(pricePerToken)`: `parseFloat(pricePerToken) || 0`
then `Math.round(price * 1000000 * 1000) / 1000`.  The parse boundary is
modelled as `Option ℚ`: `none` is a missing or unparseable price (for which
`parseFloat` yields `NaN`, and `NaN || 0` is `0`). -/
def formatPrice (pricePerToken : Option ℚ) : ℚ :=
  let price : ℚ := pricePerToken.getD 0
  (mathRound (price * 1000000 * 1000) : ℚ) / 1000

/-- Render a natural number below 100 as exactly two digits (`7 ↦ "07"`),
as `toFixed(2)` does for the fractional part. -/
def twoDigits (n : Nat) : String :=
  if n < 10 then "0" ++ toString n else toString n

/-- `(length / 1000000).toFixed(2)`: the three-decimal-shifted half-up
rounding of `length / 10⁶`, rendered with two decimal places. -/
def toFixedTwoOfMillionths (length : Nat) : String :=
  let n := (length * 100 + 500000) / 1000000
  toString (n / 100) ++ "." ++ twoDigits (n % 100)

/-- `(length / 1000).toFixed(0)`: half-up rounding of `length / 1000`. -/
def toFixedZeroOfThousandths (length : Nat) : String :=
  toString ((length + 500) / 1000)

/-- `function formatContextLength(length)` from `api/models.js`.
`!length` is true exactly when the field is absent or `0`. -/
def formatContextLength (length : Option Nat) : Option String :=
  if length.getD 0 = 0 then none
  else
    let n := length.getD 0
    if n ≥ 1000000 then some (toFixedTwoOfMillionths n ++ "M")
    else if n ≥ 1000 then some (toFixedZeroOfThousandths n ++ "K")
    else some (toString n)

/-- JS `String.prototype.split` with a single-character separator, on the
character list of the string.  Never returns `[]`; splitting a string that
does not contain the separator returns the one-element list. -/
def splitChar (sep : Char) : List Char → List (List Char)
  | [] => [[]]
  | c :: rest =>
    if c = sep then [] :: splitChar sep rest
    else
      match splitChar sep rest with
      | [] => [[c]]
      | p :: ps => (c :: p) :: ps

/-- `function extractProvider(modelId)`: split on `'/'` and return the
first part when there are at least two parts, else `"unknown"`. -/
def extractProvider (modelId : String) : String :=
  let parts := splitChar '/' modelId.toList
  if 2 ≤ parts.length then String.mk (parts.headD []) else "unknown"

/-- A raw upstream record, the shape the handler reads off the parsed JSON
body (`model.id`, `model.name`, `model.pricing?.prompt`, ...).  Optional
fields are `Option`; prices are already past the `parseFloat` boundary
(see `formatPrice`). -/
structure RawModel where
  id : String
  name : Option String
  description : Option String
  context_length : Option Nat
  pricing_prompt : Option ℚ
  pricing_completion : Option ℚ
  top_provider_max_completion_tokens : Option Nat
  architecture_modality : Option String
  architecture_input_modalities : Option (List String)
  architecture_output_modalities : Option (List String)
  created : Option Nat
  deriving Repr, DecidableEq

/-- A transformed model record, one element of the `models` array the
handler produces.  `createdAt` is kept as epoch milliseconds (the code
renders `model.created * 1000` as an ISO string). -/
structure Model where
  id : String
  name : String
  provider : String
  description : String
  contextLength : Nat
  contextLengthFormatted : Option String
  maxOutput : Nat
  maxOutputFormatted : Option String
  inputPrice : ℚ
  outputPrice : ℚ
  modality : String
  inputModalities : List String
  outputModalities : List String
  openRouterUrl : String
  createdAt : Option Nat
  deriving Repr, DecidableEq

/-- JS `x || d` for a possibly-absent string field: `""` is falsy. -/
def jsOrStr (x : Option String) (d : String) : String :=
  match x with
  | none => d
  | some s => if s = "" then d else s

/-- The body of the arrow function inside `processModels`: one raw record
to one transformed record. -/
def processModel (model : RawModel) : Model :=
  { id := model.id
    name := jsOrStr model.name model.id
    provider := extractProvider model.id
    description := jsOrStr model.description ""
    contextLength := model.context_length.getD 0
    contextLengthFormatted := formatContextLength model.context_length
    maxOutput := model.top_provider_max_completion_tokens.getD 0
    maxOutputFormatted := formatContextLength model.top_provider_max_completion_tokens
    inputPrice := formatPrice model.pricing_prompt
    outputPrice := formatPrice model.pricing_completion
    modality := jsOrStr model.architecture_modality "text->text"
    inputModalities := model.architecture_input_modalities.getD ["text"]
    outputModalities := model.architecture_output_modalities.getD ["text"]
    openRouterUrl := "https://openrouter.ai/" ++ model.id
    createdAt := match model.created with
      | none => none
      | some c => if c = 0 then none else some (c * 1000) }

/-- `function processModels(rawModels)`: `rawModels.map(...)`. -/
def processModels (rawModels : List RawModel) : List Model :=
  rawModels.map processModel

/-- The `result` object built after a successful fetch: `updatedAt` (kept
as the epoch-milliseconds clock reading the ISO string renders),
`totalCount`, `models`. -/
structure Payload where
  updatedAt : ℤ
  totalCount : Nat
  models : List Model
  deriving Repr, DecidableEq

/-- The module-level `cache` object: `data`, `timestamp`, `TTL`. -/
structure Cache where
  data : Option Payload
  timestamp : ℤ
  TTL : ℤ
  deriving Repr, DecidableEq

/-- The initial value of `cache`: no data, timestamp `0`, one-hour TTL. -/
def initialCache : Cache :=
  { data := none, timestamp := 0, TTL := 60 * 60 * 1000 }

/-- The possible outcomes of `await fetch(OPENROUTER_API)` plus the two
response-shape checks the handler performs: a network-level failure, a
non-ok status, a body whose `data` field is missing or not an array, or a
good body carrying the raw records. -/
inductive FetchResult where
  | networkError
  | badStatus (status : Nat)
  | malformedBody
  | ok (records : List RawModel)
  deriving Repr, DecidableEq

/-- The JSON body the handler sends: either a payload — with the
`fromCache: true` marker and the optional `cacheReason` annotation the
cached paths spread in — or the error object of the 500 response. -/
inductive ResBody where
  | payload (p : Payload) (fromCache : Bool) (cacheReason : Option String)
  | error (err : String) (message : String)
  deriving Repr, DecidableEq

/-- `res.status(...).json(...)`: the HTTP status and the JSON body. -/
structure Response where
  status : Nat
  body : ResBody
  deriving Repr, DecidableEq

/-- Whether the handler serves directly from cache:
`cache.data && (now - cache.timestamp) < cache.TTL`. -/
def cacheHit (cache : Cache) (now : ℤ) : Prop :=
  cache.data.isSome ∧ now - cache.timestamp < cache.TTL

instance (cache : Cache) (now : ℤ) : Decidable (cacheHit cache now) :=
  inferInstanceAs (Decidable (_ ∧ _))

/-- The `error.message` reaching the `catch` block for each failing fetch
outcome (the runtime message of a network failure, or the message of the
two `throw new Error(...)` statements). -/
def errorMessage : FetchResult → String
  | .networkError => "fetch failed"
  | .badStatus status => "OpenRouter API error: " ++ toString status
  | .malformedBody => "Invalid API response format"
  | .ok _ => ""

/-- `export default async function handler(req, res)`, with the clock and
the upstream fetch outcome as parameters.  Returns the response sent and
the cache left behind.  The `catch` block receives every failing
`FetchResult`; the three header-setting calls have no modelled effect. -/
def handler (cache : Cache) (now : ℤ) (fetch : FetchResult) :
    Response × Cache :=
  if h : cacheHit cache now then
    (⟨200, .payload (cache.data.get h.1) true none⟩, cache)
  else
    match fetch with
    | .ok records =>
      let models := processModels records
      let result : Payload :=
        { updatedAt := now, totalCount := models.length, models := models }
      (⟨200, .payload result false none⟩,
       { data := some result, timestamp := now, TTL := cache.TTL })
    | e =>
      match cache.data with
      | some d =>
        (⟨200, .payload d true (some "API error fallback")⟩, cache)
      | none =>
        (⟨500, .error "Failed to fetch models" (errorMessage e)⟩, cache)

/-- Run the handler over a whole request history, starting from the
process-start cache, and return the final cache. -/
def runCache (steps : List (ℤ × FetchResult)) : Cache :=
  steps.foldl (fun c s => (handler c s.1 s.2).2) initialCache

/-- Spec-side reading of "rounded to 3 decimal places": scale by `1000`,
round half up, scale back. -/
def specRound3 (x : ℚ) : ℚ := ((⌊x * 1000 + 1/2⌋ : ℤ) : ℚ) / 1000

/-- Spec-side reading of "the value with two decimal places": round the
exact rational to hundredths (half up) and print integer part, a dot, and
a two-digit fractional part. -/
def specTwoDecimals (x : ℚ) : String :=
  let n : ℕ := (mathRound (x * 100)).toNat
  toString (n / 100) ++ "." ++ twoDigits (n % 100)

/-- Spec-side reading of "the value with zero decimal places": the half-up
rounding of the exact rational, printed. -/
def specZeroDecimals (x : ℚ) : String :=
  toString (mathRound x).toNat

/-- Context-length formatting as the spec words it: values `≥ 1000000`
are the value divided by `10⁶` with two decimal places followed by `"M"`,
values `≥ 1000` the value divided by `10³` with zero decimal places
followed by `"K"`, smaller positive values the literal number, and the
result is absent exactly for a zero or missing value. -/
def specFormatContextLength (length : Option Nat) : Option String :=
  match length with
  | none => none
  | some n =>
    if n = 0 then none
    else if 1000000 ≤ n then some (specTwoDecimals ((n : ℚ) / 1000000) ++ "M")
    else if 1000 ≤ n then some (specZeroDecimals ((n : ℚ) / 1000) ++ "K")
    else some (toString n)

/-- The shape every cache reachable from process start has: the TTL is the
fixed hour, and a present payload carries the very timestamp the cache
records for it (payload and timestamp come from the same fetch). -/
def cacheWellFormed (c : Cache) : Prop :=
  c.TTL = 3600000 ∧ ∀ p, c.data = some p → p.updatedAt = c.timestamp

/-- `true` exactly on the fetch outcomes the `catch` block receives. -/
def FetchResult.isFailure : FetchResult → Bool
  | .networkError => true
  | .badStatus _ => true
  | .malformedBody => true
  | .ok _ => false

/-- A concrete raw record, used to instantiate theorems. -/
def sampleRaw : RawModel :=
  { id := "openai/gpt-4o"
    name := some "GPT-4o"
    description := some "flagship"
    context_length := some 128000
    pricing_prompt := some (25 / 10000000)
    pricing_completion := some (1 / 100000)
    top_provider_max_completion_tokens := some 16384
    architecture_modality := none
    architecture_input_modalities := none
    architecture_output_modalities := none
    created := some 1715367049 }

/-- A concrete payload, used to instantiate theorems. -/
def samplePayload : Payload :=
  { updatedAt := 0, totalCount := 0, models := [] }

/-- The cache after a successful fetch of `samplePayload` at time `0`. -/
def sampleCachedCache : Cache :=
  { data := some samplePayload, timestamp := 0, TTL := 3600000 }

/-! ### Lemmas about `splitChar` -/

lemma splitChar_ne_nil (sep : Char) (s : List Char) : splitChar sep s ≠ [] := by
  cases s with
  | nil => simp [splitChar]
  | cons c rest =>
    by_cases hc : c = sep
    · simp [splitChar, hc]
    · simp only [splitChar, if_neg hc]
      cases splitChar sep rest <;> simp

lemma splitChar_headD (sep : Char) (s : List Char) :
    (splitChar sep s).headD [] = s.takeWhile (fun c => !(c == sep)) := by
  induction s with
  | nil => simp [splitChar]
  | cons c rest ih =>
    by_cases hc : c = sep
    · subst hc
      simp [splitChar, List.takeWhile_cons]
    · obtain ⟨p, ps, hps⟩ :=
        List.exists_cons_of_ne_nil (splitChar_ne_nil sep rest)
      rw [hps] at ih
      simp only [List.headD_cons] at ih
      simp only [splitChar, if_neg hc, hps, List.headD_cons,
        List.takeWhile_cons]
      rw [if_pos (by simp [hc]), ih]

lemma splitChar_two_le_length_iff (sep : Char) (s : List Char) :
    2 ≤ (splitChar sep s).length ↔ sep ∈ s := by
  induction s with
  | nil => simp [splitChar]
  | cons c rest ih =>
    by_cases hc : c = sep
    · subst hc
      have h2 : 0 < (splitChar c rest).length :=
        List.length_pos.mpr (splitChar_ne_nil c rest)
      simp only [splitChar, if_pos rfl, eq_self_iff_true, ite_true,
        List.length_cons, List.mem_cons, true_or, iff_true]
      omega
    · obtain ⟨p, ps, hps⟩ :=
        List.exists_cons_of_ne_nil (splitChar_ne_nil sep rest)
      rw [hps] at ih
      simp only [List.length_cons] at ih
      simp only [splitChar, if_neg hc, hps, List.length_cons, List.mem_cons]
      rw [ih]
      exact (or_iff_right fun h => hc h.symm).symm

/-! ### Claim theorems about the pure helpers -/

/-- C8: for every model id, the derived provider is the substring before
the first `'/'` when the id contains a `'/'`, and `"unknown"` otherwise;
in particular `"openai/gpt-4o" → "openai"` and
`"standalone-id" → "unknown"`. -/
theorem extractProvider_spec :
    (∀ id : String, extractProvider id =
      if '/' ∈ id.toList
      then String.mk (id.toList.takeWhile (fun c => !(c == '/')))
      else "unknown") ∧
    extractProvider "openai/gpt-4o" = "openai" ∧
    extractProvider "standalone-id" = "unknown" := by
  refine ⟨fun id => ?_, by decide, by decide⟩
  by_cases h : '/' ∈ id.toList
  · simp only [extractProvider]
    rw [if_pos ((splitChar_two_le_length_iff '/' id.toList).mpr h), if_pos h,
      splitChar_headD]
  · simp only [extractProvider]
    rw [if_neg fun h2 => h ((splitChar_two_le_length_iff '/' id.toList).mp h2),
      if_neg h]

/-- C6: the transformation computes `inputPrice`/`outputPrice` as the
per-token price times `10⁶`, rounded (half up) to 3 decimal places;
`0.0000025 ↦ 2.5`, `0 ↦ 0`, and a missing or unparseable price maps
to `0`. -/
theorem formatPrice_spec :
    (∀ q : ℚ, formatPrice (some q) = specRound3 (q * 1000000)) ∧
    formatPrice none = 0 ∧
    formatPrice (some (25 / 10000000)) = 5 / 2 ∧
    formatPrice (some 0) = 0 ∧
    (∀ m : RawModel,
      (processModel m).inputPrice = formatPrice m.pricing_prompt ∧
      (processModel m).outputPrice = formatPrice m.pricing_completion) := by
  refine ⟨fun q => rfl, ?_, ?_, ?_, fun m => ⟨rfl, rfl⟩⟩
  · norm_num [formatPrice, mathRound]
  · norm_num [formatPrice, mathRound]
  · norm_num [formatPrice, mathRound]

/-- C9: a transformed record's `name` is the upstream `name` unless that
field is missing, null, or the empty string, in which case it is the
record's `id`. -/
theorem processModels_name_spec :
    (∀ m : RawModel, m.name = none ∨ m.name = some "" →
      (processModel m).name = m.id) ∧
    (∀ (m : RawModel) (s : String), m.name = some s → s ≠ "" →
      (processModel m).name = s) ∧
    (∀ ms : List RawModel,
      (processModels ms).map Model.name = ms.map fun m => (processModel m).name) := by
  refine ⟨?_, ?_, fun ms => by simp [processModels]⟩
  · rintro m (h | h) <;> simp [processModel, jsOrStr, h]
  · intro m s hs hne
    simp [processModel, jsOrStr, hs, hne]

/-- Witness for C9 at two concrete records: one with no upstream name,
one with a non-empty upstream name. -/
theorem processModels_name_spec_witness :
    (processModel
      ⟨"standalone-id", none, none, none, none, none, none, none, none,
        none, none⟩).name = "standalone-id" ∧
    (processModel
      ⟨"openai/gpt-4o", some "GPT-4o", none, none, none, none, none, none,
        none, none, none⟩).name = "GPT-4o" :=
  ⟨processModels_name_spec.1 _ (Or.inl rfl),
   processModels_name_spec.2.1 _ "GPT-4o" rfl (by decide)⟩

/-! ### The context-length renderer agrees with the spec-side rendering -/

lemma round_hundredths_of_millionths (n : ℕ) :
    (mathRound ((n : ℚ) / 1000000 * 100)).toNat = (n * 100 + 500000) / 1000000 := by
  have h : (n : ℚ) / 1000000 * 100 + 1/2
      = ((n * 200 + 1000000 : ℕ) : ℚ) / ((2000000 : ℕ) : ℚ) := by
    push_cast; ring
  rw [mathRound, h, Int.floor_toNat, Nat.floor_div_nat, Nat.floor_natCast]
  omega

lemma round_units_of_thousandths (n : ℕ) :
    (mathRound ((n : ℚ) / 1000)).toNat = (n + 500) / 1000 := by
  have h : (n : ℚ) / 1000 + 1/2
      = ((n * 2 + 1000 : ℕ) : ℚ) / ((2000 : ℕ) : ℚ) := by
    push_cast; ring
  rw [mathRound, h, Int.floor_toNat, Nat.floor_div_nat, Nat.floor_natCast]
  omega

lemma toFixedTwoOfMillionths_eq_spec (n : ℕ) :
    toFixedTwoOfMillionths n = specTwoDecimals ((n : ℚ) / 1000000) := by
  simp only [toFixedTwoOfMillionths, specTwoDecimals,
    round_hundredths_of_millionths]

lemma toFixedZeroOfThousandths_eq_spec (n : ℕ) :
    toFixedZeroOfThousandths n = specZeroDecimals ((n : ℚ) / 1000) := by
  simp only [toFixedZeroOfThousandths, specZeroDecimals,
    round_units_of_thousandths]

/-- C7: the formatted context length (and the formatted max output, by the
same rule) renders values `≥ 10⁶` as the value over `10⁶` with two decimal
places plus `"M"`, values `≥ 10³` as the value over `10³` with zero
decimal places plus `"K"`, smaller positive values literally, and is
absent exactly when the value is zero or missing; in particular
`1000000 ↦ "1.00M"`, `128000 ↦ "128K"`, `500 ↦ "500"`. -/
theorem formatContextLength_spec :
    (∀ l : Option Nat, formatContextLength l = specFormatContextLength l) ∧
    (∀ l : Option Nat, formatContextLength l = none ↔ l.getD 0 = 0) ∧
    formatContextLength (some 1000000) = some "1.00M" ∧
    formatContextLength (some 128000) = some "128K" ∧
    formatContextLength (some 500) = some "500" ∧
    formatContextLength (some 0) = none ∧
    formatContextLength none = none ∧
    (∀ m : RawModel,
      (processModel m).contextLengthFormatted = formatContextLength m.context_length ∧
      (processModel m).maxOutputFormatted
        = formatContextLength m.top_provider_max_completion_tokens) := by
  refine ⟨?_, ?_, by decide, by decide, by decide, by decide, rfl,
    fun m => ⟨rfl, rfl⟩⟩
  · intro l
    cases l with
    | none => rfl
    | some n =>
      by_cases h0 : n = 0
      · subst h0; rfl
      · simp only [formatContextLength, specFormatContextLength,
          Option.getD_some, if_neg h0, ge_iff_le]
        by_cases h1 : 1000000 ≤ n
        · rw [if_pos h1, if_pos h1, toFixedTwoOfMillionths_eq_spec]
        · rw [if_neg h1, if_neg h1]
          by_cases h2 : 1000 ≤ n
          · rw [if_pos h2, if_pos h2, toFixedZeroOfThousandths_eq_spec]
          · rw [if_neg h2, if_neg h2]
  · intro l
    cases l with
    | none => simp [formatContextLength]
    | some n =>
      by_cases h0 : n = 0
      · subst h0; simp [formatContextLength]
      · simp only [formatContextLength, Option.getD_some, if_neg h0,
          ge_iff_le]
        split_ifs <;> simp [h0]

/-! ### Claim theorems about the handler and its cache -/

/-- C1: while a cached payload exists and `now - timestamp` is strictly
below the 3,600,000 ms TTL, the handler returns that payload unchanged,
tagged as served-from-cache, leaves the cache alone, and its outcome does
not depend on the upstream fetch at all (no upstream call is made). -/
theorem handler_cacheHit_spec
    (cache : Cache) (now : ℤ) (p : Payload) (f f2 : FetchResult)
    (hdata : cache.data = some p) (httl : cache.TTL = 3600000)
    (hfresh : now - cache.timestamp < 3600000) :
    handler cache now f = (⟨200, ResBody.payload p true none⟩, cache) ∧
    handler cache now f = handler cache now f2 := by
  have hit : cacheHit cache now :=
    ⟨by simp [hdata], by rw [httl]; exact hfresh⟩
  have hget : cache.data.get hit.1 = p := by simp [hdata]
  constructor
  · simp only [handler, dif_pos hit, hget]
  · simp only [handler, dif_pos hit]

/-- Witness for C1: a fresh cache holding `samplePayload`, queried 10 ms
after the fetch, with two different upstream outcomes. -/
theorem handler_cacheHit_spec_witness :
    (handler sampleCachedCache 10 FetchResult.networkError
      = (⟨200, ResBody.payload samplePayload true none⟩, sampleCachedCache)) ∧
    handler sampleCachedCache 10 FetchResult.networkError
      = handler sampleCachedCache 10 (FetchResult.ok [sampleRaw]) :=
  handler_cacheHit_spec sampleCachedCache 10 samplePayload
    FetchResult.networkError (FetchResult.ok [sampleRaw]) rfl rfl (by decide)

/-- C2: when the fetch fails (network error, bad status, or malformed
body) and a cached payload exists past its TTL, the handler returns that
payload unchanged with `fromCache` and the fallback reason, and leaves
the cache entry unmodified. -/
theorem handler_errorFallback_spec
    (cache : Cache) (now : ℤ) (p : Payload) (f : FetchResult)
    (hdata : cache.data = some p)
    (hexp : ¬ now - cache.timestamp < cache.TTL)
    (hfail : f.isFailure = true) :
    handler cache now f
      = (⟨200, ResBody.payload p true (some "API error fallback")⟩, cache) := by
  have hmiss : ¬ cacheHit cache now := fun h => hexp h.2
  cases f with
  | ok records => simp [FetchResult.isFailure] at hfail
  | networkError => simp only [handler, dif_neg hmiss, hdata]
  | badStatus s => simp only [handler, dif_neg hmiss, hdata]
  | malformedBody => simp only [handler, dif_neg hmiss, hdata]

/-- Witness for C2: the sample cache queried exactly at TTL expiry with a
failing upstream. -/
theorem handler_errorFallback_spec_witness :
    handler sampleCachedCache 3600000 FetchResult.networkError
      = (⟨200, ResBody.payload samplePayload true (some "API error fallback")⟩,
         sampleCachedCache) :=
  handler_errorFallback_spec sampleCachedCache 3600000 samplePayload
    FetchResult.networkError rfl (by decide) rfl

/-- C3: when the fetch fails and no cached payload exists, the handler
sends a 500 error body with no model data, leaving the cache alone. -/
theorem handler_noCache_error_spec
    (cache : Cache) (now : ℤ) (f : FetchResult)
    (hdata : cache.data = none) (hfail : f.isFailure = true) :
    handler cache now f
      = (⟨500, ResBody.error "Failed to fetch models" (errorMessage f)⟩,
         cache) := by
  have hmiss : ¬ cacheHit cache now := fun h => by
    simp [cacheHit, hdata] at h
  cases f with
  | ok records => simp [FetchResult.isFailure] at hfail
  | networkError => simp only [handler, dif_neg hmiss, hdata, errorMessage]
  | badStatus s => simp only [handler, dif_neg hmiss, hdata, errorMessage]
  | malformedBody => simp only [handler, dif_neg hmiss, hdata, errorMessage]

/-- Witness for C3: the empty start cache with a 503 upstream status. -/
theorem handler_noCache_error_spec_witness :
    handler initialCache 7 (FetchResult.badStatus 503)
      = (⟨500, ResBody.error "Failed to fetch models"
            (errorMessage (FetchResult.badStatus 503))⟩, initialCache) :=
  handler_noCache_error_spec initialCache 7 (FetchResult.badStatus 503) rfl rfl

lemma handler_cache_step (cache : Cache) (now : ℤ) (f : FetchResult) :
    (handler cache now f).2 = cache ∨
    (¬ cacheHit cache now ∧ ∃ records, f = FetchResult.ok records ∧
      (handler cache now f).2 =
        { data := some { updatedAt := now,
                         totalCount := (processModels records).length,
                         models := processModels records },
          timestamp := now, TTL := cache.TTL }) := by
  by_cases h : cacheHit cache now
  · left; simp [handler, dif_pos h]
  · cases f with
    | ok records =>
      right
      exact ⟨h, records, rfl, by simp [handler, dif_neg h]⟩
    | networkError =>
      left; cases hd : cache.data <;> simp [handler, dif_neg h, hd]
    | badStatus s =>
      left; cases hd : cache.data <;> simp [handler, dif_neg h, hd]
    | malformedBody =>
      left; cases hd : cache.data <;> simp [handler, dif_neg h, hd]

lemma cacheWellFormed_handler (cache : Cache) (now : ℤ) (f : FetchResult)
    (hwf : cacheWellFormed cache) :
    cacheWellFormed (handler cache now f).2 := by
  rcases handler_cache_step cache now f with h | ⟨-, records, -, h⟩
  · rw [h]; exact hwf
  · rw [h]
    refine ⟨hwf.1, fun p hp => ?_⟩
    simp only [Option.some.injEq] at hp
    rw [← hp]

lemma cacheWellFormed_runCache (steps : List (ℤ × FetchResult)) :
    cacheWellFormed (runCache steps) := by
  suffices h : ∀ c, cacheWellFormed c →
      cacheWellFormed (steps.foldl (fun c s => (handler c s.1 s.2).2) c) from
    h initialCache ⟨rfl, fun p hp => Option.noConfusion hp⟩
  induction steps with
  | nil => exact fun c hc => hc
  | cons s rest ih =>
    exact fun c hc => ih _ (cacheWellFormed_handler c s.1 s.2 hc)

/-- C4: across every request history the cache is only ever replaced as a
whole by a successful fetch — each step either leaves the entry untouched
or installs a payload and timestamp taken from that same fetch — and when
a payload was already present the installing fetch is strictly newer; in
every reachable cache the stored payload's `updatedAt` is exactly the
stored timestamp. -/
theorem cache_replacement_spec :
    (∀ steps : List (ℤ × FetchResult), cacheWellFormed (runCache steps)) ∧
    (∀ (cache : Cache) (now : ℤ) (f : FetchResult), cacheWellFormed cache →
      (handler cache now f).2 = cache ∨
      ∃ records, f = FetchResult.ok records ∧
        (handler cache now f).2 =
          { data := some { updatedAt := now,
                           totalCount := (processModels records).length,
                           models := processModels records },
            timestamp := now, TTL := cache.TTL } ∧
        ∀ p, cache.data = some p → cache.timestamp < now) := by
  refine ⟨cacheWellFormed_runCache, fun cache now f hwf => ?_⟩
  rcases handler_cache_step cache now f with h | ⟨hmiss, records, hf, h⟩
  · exact Or.inl h
  · refine Or.inr ⟨records, hf, h, fun p hp => ?_⟩
    by_contra hlt
    push_neg at hlt
    apply hmiss
    refine ⟨by simp [hp], ?_⟩
    rw [hwf.1]
    omega

/-- Witness for C4: one step of the invariant at the start cache. -/
theorem cache_replacement_spec_witness :
    (handler initialCache 5 (FetchResult.ok [sampleRaw])).2 = initialCache ∨
    ∃ records, FetchResult.ok [sampleRaw] = FetchResult.ok records ∧
      (handler initialCache 5 (FetchResult.ok [sampleRaw])).2 =
        { data := some { updatedAt := 5,
                         totalCount := (processModels records).length,
                         models := processModels records },
          timestamp := 5, TTL := initialCache.TTL } ∧
      ∀ p, initialCache.data = some p → initialCache.timestamp < 5 :=
  cache_replacement_spec.2 initialCache 5 (FetchResult.ok [sampleRaw])
    ⟨rfl, fun _ hp => Option.noConfusion hp⟩

/-- C5: a successful fetch made once the TTL has elapsed since a previous
successful fetch returns a payload whose `updatedAt` is strictly greater
than the previous one. -/
theorem handler_updatedAt_strict_mono
    (c1 : Cache) (now1 now2 : ℤ) (r1 r2 : List RawModel)
    (httl : c1.TTL = 3600000)
    (hmiss : ¬ cacheHit c1 now1)
    (helapsed : 3600000 ≤ now2 - now1) :
    ∃ p1 p2 : Payload,
      (handler c1 now1 (FetchResult.ok r1)).1.body
        = ResBody.payload p1 false none ∧
      (handler (handler c1 now1 (FetchResult.ok r1)).2 now2
          (FetchResult.ok r2)).1.body = ResBody.payload p2 false none ∧
      p1.updatedAt < p2.updatedAt := by
  have hstep2 : (handler c1 now1 (FetchResult.ok r1)).2 =
      { data := some { updatedAt := now1,
                       totalCount := (processModels r1).length,
                       models := processModels r1 },
        timestamp := now1, TTL := c1.TTL } := by
    simp [handler, dif_neg hmiss]
  have hmiss2 : ¬ cacheHit
      { data := some { updatedAt := now1,
                       totalCount := (processModels r1).length,
                       models := processModels r1 },
        timestamp := now1, TTL := c1.TTL } now2 := by
    intro h
    have h2 : now2 - now1 < c1.TTL := h.2
    rw [httl] at h2
    omega
  refine ⟨{ updatedAt := now1, totalCount := (processModels r1).length,
            models := processModels r1 },
          { updatedAt := now2, totalCount := (processModels r2).length,
            models := processModels r2 }, ?_, ?_, ?_⟩
  · simp [handler, dif_neg hmiss]
  · rw [hstep2]
    simp [handler, dif_neg hmiss2]
  · show now1 < now2
    omega

/-- Witness for C5: a fetch at time `0` followed by one at time
`3600000`. -/
theorem handler_updatedAt_strict_mono_witness :
    ∃ p1 p2 : Payload,
      (handler initialCache 0 (FetchResult.ok [])).1.body
        = ResBody.payload p1 false none ∧
      (handler (handler initialCache 0 (FetchResult.ok [])).2 3600000
          (FetchResult.ok [sampleRaw])).1.body
        = ResBody.payload p2 false none ∧
      p1.updatedAt < p2.updatedAt :=
  handler_updatedAt_strict_mono initialCache 0 3600000 [] [sampleRaw]
    rfl (by decide) (by decide)

/-- C10: a fresh successful fetch produces a payload whose `totalCount`
is the length of its `models` array, which is the number of records in
the upstream `data` array. -/
theorem handler_totalCount_spec
    (cache : Cache) (now : ℤ) (records : List RawModel)
    (hmiss : ¬ cacheHit cache now) :
    (handler cache now (FetchResult.ok records)).1
      = ⟨200, ResBody.payload
          { updatedAt := now, totalCount := (processModels records).length,
            models := processModels records } false none⟩ ∧
    (processModels records).length = records.length := by
  refine ⟨?_, by simp [processModels]⟩
  simp [handler, dif_neg hmiss]

/-- Witness for C10: a fresh fetch of one record at the start cache. -/
theorem handler_totalCount_spec_witness :
    (handler initialCache 0 (FetchResult.ok [sampleRaw])).1
      = ⟨200, ResBody.payload
          { updatedAt := 0,
            totalCount := (processModels [sampleRaw]).length,
            models := processModels [sampleRaw] } false none⟩ ∧
    (processModels [sampleRaw]).length = [sampleRaw].length :=
  handler_totalCount_spec initialCache 0 [sampleRaw] (by decide)

end ModelsApi
